import Mathlib

/-!
Verification of the BOBCAT per-robot decision engine (`robot.py`).

The embedding models the decision logic of `BCRobot` over exact rationals.
The geometry helpers (`getDist`, `averagePosition`, `averagePose`,
`angleDiff`, `getYaw`) live in `util.helpers`, outside the provided source
tree, so they are modelled from the spec; every comparison
`getDist p q < c` of the source is embedded as the equivalent
`sqDist p q < c^2` (all thresholds in the source are nonnegative), which
keeps every definition decidable.
-/

namespace Bobcat

/-- A 3-D position with exact rational coordinates (`geometry_msgs/Point`). -/
structure Pt where
  x : ℚ
  y : ℚ
  z : ℚ
deriving DecidableEq

/-- Modelled from the spec: `getDist` of `util.helpers` is Euclidean
distance ("displacement", "distance units"); we embed its comparisons
through the squared distance, so `getDist p q < c` becomes
`sqDist p q < c^2`. -/
def sqDist (p q : Pt) : ℚ :=
  (p.x - q.x) ^ 2 + (p.y - q.y) ^ 2 + (p.z - q.z) ^ 2

/-- Modelled from the spec: `averagePosition` of `util.helpers` is the
componentwise mean of a list of positions ("computes the mean of pending
goals"). -/
def averagePosition (l : List Pt) : Pt :=
  ⟨(l.map Pt.x).sum / l.length, (l.map Pt.y).sum / l.length,
   (l.map Pt.z).sum / l.length⟩

/-- A pose sample: position plus heading. The source stores a quaternion
and extracts the yaw with `getYaw`/`math.degrees` (both outside `src/`),
so the pose is modelled with its yaw in degrees directly. -/
structure Pose where
  position : Pt
  yawDeg : ℚ
deriving DecidableEq

/-- Modelled from the spec: `angleDiff` of `util.helpers` is the signed
difference of two angles in degrees, normalised into `[-180, 180)`. -/
def angleDiffDeg (a b : ℚ) : ℚ :=
  let d := a - b
  if d ≥ 180 then d - 360 else if d < -180 then d + 360 else d

/-- A relay beacon: id, owner flag, active (deployed) flag,
comm-simulation flag and position (`robot.py` beacon records). -/
structure Beacon where
  id : String
  owner : Bool
  active : Bool
  simcomm : Bool
  pos : Pt
deriving DecidableEq

/-- One step of the loop in `beaconDistCheck` (robot.py lines 205-214):
for each active beacon the beacon counter increments, and when the beacon
is farther than `checkDist` the distant counter increments and
`dropBeacon` is forced true. Accumulator: (numBeacons, numDistBeacons,
dropBeacon). -/
def bdcStep (pos : Pt) (checkDist : ℚ) (acc : ℕ × ℕ × Bool) (b : Beacon) :
    ℕ × ℕ × Bool :=
  if b.active then
    if sqDist pos b.pos > checkDist ^ 2 then
      (acc.1 + 1, acc.2.1 + 1, true)
    else
      (acc.1 + 1, acc.2.1, acc.2.2)
  else acc

/-- `BCRobot.beaconDistCheck` (robot.py lines 202-220): count active
beacons and those beyond `checkDist`; a distant beacon forces a drop, but
if any active beacon remains in range (`numBeacons - numDistBeacons > 0`)
the drop is cancelled. Returns `(dropBeacon, numBeacons, numDistBeacons)`. -/
def beaconDistCheck (beacons : List Beacon) (pos : Pt) (checkDist : ℚ)
    (dropBeacon : Bool) : Bool × ℕ × ℕ :=
  let acc := beacons.foldl (bdcStep pos checkDist) (0, 0, dropBeacon)
  (if acc.1 - acc.2.1 > 0 then false else acc.2.2, acc.1, acc.2.1)

/-- An active beacon beyond the check distance. -/
def isDistant (pos : Pt) (checkDist : ℚ) (b : Beacon) : Bool :=
  b.active && decide (sqDist pos b.pos > checkDist ^ 2)

/-- An active beacon within the check distance. -/
def inRange (pos : Pt) (checkDist : ℚ) (b : Beacon) : Bool :=
  b.active && decide (¬ sqDist pos b.pos > checkDist ^ 2)

/-- The stuck test of `run` (robot.py lines 363-365): over the full
history window, displacement between oldest and newest position below 0.5
and heading change between oldest and newest orientation below 60 degrees. -/
def stuckCondition (history : List Pose) : Bool :=
  match history.head?, history.getLast? with
  | some h0, some h1 =>
      decide (sqDist h0.position h1.position < (1/2 : ℚ) ^ 2) &&
      decide (|angleDiffDeg h0.yawDeg h1.yawDeg| < 60)
  | _, _ => false

/-- The mutable state of the stuck / goal-blacklist logic in `run`. -/
structure StuckState where
  stuck : ℕ
  blgoals : List Pt
  blacklist : List Pt
deriving DecidableEq

/-- The increment/reset step of `run` (robot.py lines 363-371): when the
window shows the robot stuck, the counter increments and the current goal
position is appended to the pending blacklist candidates; otherwise the
counter resets to 0 and the pending list clears. -/
def stuckIncrement (history : List Pose) (goalPos : Pt) (s : StuckState) :
    StuckState :=
  if stuckCondition history then
    { s with stuck := s.stuck + 1, blgoals := s.blgoals ++ [goalPos] }
  else
    { s with stuck := 0, blgoals := [] }

/-- The outlier filter of `run` (robot.py lines 381-384): keep the pending
goals whose distance to their mean is below `2 × deconflictRadius`. -/
def survivors (deconflictRadius : ℚ) (goals : List Pt) : List Pt :=
  goals.filter fun g =>
    decide (sqDist g (averagePosition goals) < (deconflictRadius * 2) ^ 2)

/-- The blacklist commit step of `run` (robot.py lines 374-393): at the
stuck threshold and at its exact multiples, average the pending goals,
drop outliers, and when the survivors exceed half the history-window
length and their mean is not the origin, append that mean to the goal
blacklist (`addBlacklist` lives in the parent class outside `src/`;
modelled from the spec: "commits it to the Goal Blacklist") and clear the
pending list. -/
def blacklistCommit (hislen stopCheck : ℕ) (deconflictRadius : ℚ)
    (s : StuckState) : StuckState :=
  if stopCheck ≤ s.stuck ∧ s.stuck % stopCheck = 0 then
    let newgoals := survivors deconflictRadius s.blgoals
    if newgoals.length > hislen / 2 then
      let avgGoal := averagePosition newgoals
      if ¬(avgGoal.x = 0 ∧ avgGoal.y = 0 ∧ avgGoal.z = 0) then
        { s with blacklist := s.blacklist ++ [avgGoal], blgoals := [] }
      else s
    else s
  else s

/-- The status-check section of `run` (robot.py lines 360-396): guards
(mission started, status not `Stop`, no `'A'` in the agent id — the id is
modelled as its character sequence, so `'A' not in self.id` is list
membership — goal path nonempty, full history window) followed by the
stuck increment and the blacklist commit. -/
def stuckTick (hislen stopCheck : ℕ) (deconflictRadius : ℚ)
    (startedMission : Bool) (status : String) (robotId : List Char)
    (pathNonempty : Bool) (history : List Pose) (goalPos : Pt)
    (s : StuckState) : StuckState :=
  if startedMission && !(status == "Stop") && !(robotId.contains 'A') then
    if pathNonempty && (history.length == hislen) then
      blacklistCommit hislen stopCheck deconflictRadius
        (stuckIncrement history goalPos s)
    else s
  else s

/-- Modelled from the spec: `averagePose` of `util.helpers` returns the
mean position and mean heading of a pose window ("compare mean pose of
the window's first 40% against its last 40%"). -/
def averagePose (l : List Pose) : Pt × ℚ :=
  (averagePosition (l.map Pose.position), (l.map Pose.yawDeg).sum / l.length)

/-- The turn-detection test of `beaconCheck` (robot.py lines 258-265):
the mean poses of the first 40% and last 40% of the history window are
more than 4 units apart, their headings differ by more than 30 degrees,
and the last step moved more than 0.5 units.  `int(0.4*hislen)` and
`int(0.6*hislen)` are embedded as the natural divisions `2*hislen/5` and
`3*hislen/5`. -/
def turnCondition (hislen : ℕ) (history : List Pose) : Bool :=
  let a1 := averagePose (history.take (2 * hislen / 5))
  let a2 := averagePose (history.drop (3 * hislen / 5))
  let lastStep :=
    match history.reverse with
    | last :: prev :: _ =>
        decide (sqDist prev.position last.position > (1/2 : ℚ) ^ 2)
    | _ => false
  decide (sqDist a1.1 a2.1 > (4 : ℚ) ^ 2) &&
    decide (|angleDiffDeg a1.2 a2.2| > 30) && lastStep

/-- Configuration parameters of the beacon-drop policy (robot.py
lines 31-60). -/
structure BCParams where
  maxAnchorDist : ℚ
  maxDist : ℚ
  junctionDist : ℚ
  minAnchorDist : ℚ
  turnDetect : Bool
  delayDrop : Bool
  hislen : ℕ
  anchorPos : Pt

/-- The anchor-distance rule of `beaconCheck` (robot.py lines 239-249):
past the anchor range and with no delay-drop flag, flag a drop with
reason "anchor distance" and tighten the check distance to `maxDist`;
otherwise no flag yet and the check distance stays `maxAnchorDist`.
Returns (dropBeacon, dropReason, checkDist). -/
def anchorPhase (p : BCParams) (anchorSqDist : ℚ) : Bool × String × ℚ :=
  if anchorSqDist > p.maxAnchorDist ^ 2 ∧ p.delayDrop = false then
    (true, "anchor distance", p.maxDist)
  else
    (false, "", p.maxAnchorDist)

/-- The junction / turn rules of `beaconCheck` (robot.py lines 253-268):
at a detected junction, flag a drop with reason "at junction" and check
distance `junctionDist`; otherwise, with turn detection enabled and a
full history window showing a turn, flag "at turn" with check distance
`junctionDist + 5`; otherwise keep the anchor-phase result. -/
def junctionPhase (p : BCParams) (atnode : Bool) (history : List Pose)
    (prev : Bool × String × ℚ) : Bool × String × ℚ :=
  if atnode then
    (true, "at junction", p.junctionDist)
  else if p.turnDetect && (history.length == p.hislen) &&
      turnCondition p.hislen history then
    (true, "at turn", p.junctionDist + 5)
  else
    prev

/-- The reason reclassification of `beaconCheck` (robot.py lines
272-273): when some active beacon is beyond the check distance and no
stronger reason fired, the reason becomes "beacon distance". -/
def reclassify (numDistBeacons : ℕ) (reason : String) : String :=
  if numDistBeacons > 0 ∧ (reason = "" ∨ reason = "anchor distance") then
    "beacon distance"
  else reason

/-- The deadband suppression condition of `beaconCheck` (robot.py line
278): at least one active beacon, anchor distance within range, and
`pose.position.y < 1 and pose.position.y > 1`. -/
def deadbandCondition (numBeacons : ℕ) (anchorSqDist maxAnchorDist y : ℚ) :
    Bool :=
  decide (numBeacons > 0) && decide (anchorSqDist < maxAnchorDist ^ 2) &&
    decide (y < 1) && decide (y > 1)

/-- Outcome of the in-comm branch of `beaconCheck`: the final drop flag,
recorded drop reason and active check distance, whether the deployment
sequencer is invoked, and the delay-drop flag after the tick. -/
structure BCResult where
  dropBeacon : Bool
  dropReason : String
  checkDist : ℚ
  deploys : Bool
  delayDropAfter : Bool
deriving DecidableEq

/-- The in-comm branch of `beaconCheck` (robot.py lines 236-285): early
return when closer to the anchor than `minAnchorDist`; otherwise the
anchor, junction/turn, beacon-distance and deadband rules in source
order, ending with the delay-drop consumption or the deployment call. -/
def beaconCheckInComm (p : BCParams) (atnode : Bool) (history : List Pose)
    (beacons : List Beacon) (pose : Pt) : Option BCResult :=
  let anchorSqDist := sqDist pose p.anchorPos
  if anchorSqDist < p.minAnchorDist ^ 2 then none
  else
    let t1 := anchorPhase p anchorSqDist
    let t2 := junctionPhase p atnode history t1
    let r := beaconDistCheck beacons pose t2.2.2 t2.1
    let reason := reclassify r.2.2 t2.2.1
    let drop :=
      if deadbandCondition r.2.1 anchorSqDist p.maxAnchorDist pose.y then
        false
      else r.1
    some
      { dropBeacon := drop
        dropReason := reason
        checkDist := t2.2.2
        deploys := drop && !p.delayDrop
        delayDropAfter := if drop && p.delayDrop then false else p.delayDrop }

/-- The state touched by the comm-loss (reverse-drop) branch of
`beaconCheck`. -/
structure RevState where
  beaconCommLost : ℕ
  reverseDrop : Bool
  bl_beacons : List Pt
  mode : String
deriving DecidableEq

/-- The comm-loss branch of `beaconCheck` (robot.py lines 286-304): with
reverse-drop enabled, increment the loss counter; past the threshold of
5, skip and disable reverse-drop when a previously attempted site lies
within `junctionDist` of the current position, otherwise switch the mode
to `Deploy` and record the position; either way reset the counter. -/
def commLossStep (junctionDist : ℚ) (pos : Pt) (s : RevState) : RevState :=
  if s.reverseDrop then
    let lost := s.beaconCommLost + 1
    if lost > 5 then
      let nearPrev :=
        s.bl_beacons.any fun bl => decide (sqDist pos bl < junctionDist ^ 2)
      let rd := if nearPrev then false else s.reverseDrop
      if rd then
        { beaconCommLost := 0, reverseDrop := rd,
          bl_beacons := s.bl_beacons ++ [pos], mode := "Deploy" }
      else
        { s with beaconCommLost := 0, reverseDrop := rd }
    else
      { s with beaconCommLost := lost }
  else s

/-- The reset performed at the top of the in-comm branch of `beaconCheck`
(robot.py lines 230-234): regaining comm with the base zeroes the loss
counter and restores `reverseDrop` from the global enable flag. -/
def regainReset (reverseDropEnable : Bool) (s : RevState) : RevState :=
  { s with beaconCommLost := 0, reverseDrop := reverseDropEnable }

/-- The state touched by `deployBeacon`. -/
structure DeployState where
  beacons : List Beacon
  numBeacons : ℤ
  mode : String
  status : String
deriving DecidableEq

/-- The beacon selection of `deployBeacon` (robot.py lines 120-125): the
id of the first owned and not yet active beacon, if any. -/
def findDeploy (beacons : List Beacon) : Option String :=
  (beacons.find? fun b => b.owner && !b.active).map Beacon.id

/-- `BCRobot.deployBeacon` (robot.py lines 119-200), with the fallible
deployment trigger abstracted by `triggerOk`: when a beacon is selected,
the robot stops and sets its status to `Deploy`; if the trigger (and the
rest of the `try` block) succeeds, exploration resumes (status
`Explore`), the owned count decrements and the beacon becomes active at
the drop position; a trigger error aborts with no further state change.
With no beacon available, the owned count resets to zero and the mode is
forced to `Explore`. -/
def deployBeacon (triggerOk : Bool) (dropPos : Pt) (s : DeployState) :
    DeployState :=
  match findDeploy s.beacons with
  | some deployId =>
      let s1 := { s with status := "Deploy" }
      if triggerOk then
        { s1 with
            status := "Explore"
            numBeacons := s1.numBeacons - 1
            beacons := s1.beacons.map fun b =>
              if b.id = deployId then
                { b with active := true, simcomm := true, pos := dropPos }
              else b }
      else s1
  | none => { s with numBeacons := 0, mode := "Explore" }

/-- The behavior selected by the goal-decision section of `run`. -/
inductive Action where
  | report
  | home
  | stop
  | deployDrop
  | deployCancel
  | deployWait
  | deployHome
  | goalReached
  | goalGui
  | explore
deriving DecidableEq

/-- The inputs read by the goal-decision section of `run`. -/
structure ArbState where
  report : Bool
  solo : Bool
  baseLastArtifact : String
  agentLastArtifact : String
  mode : String
  incomm : Bool
  regainBase : ℕ
  pose : Pt
  guiGoalPoint : Pt
  junctionDist : ℚ
  beacons : List Beacon

/-- The mode arbitration of `run` (robot.py lines 479-519): `Home`,
`Stop`, `Deploy` (with its regain-comm sub-logic reusing
`beaconDistCheck`), `Goal` (exiting to exploration within 1.0 unit of
the commanded point), and default exploration. -/
def modeDispatch (a : ArbState) : Action :=
  if a.mode = "Home" then Action.home
  else if a.mode = "Stop" then Action.stop
  else if a.mode = "Deploy" then
    if a.incomm then
      if a.regainBase > 5 then
        let r := beaconDistCheck a.beacons a.pose a.junctionDist true
        if r.1 then Action.deployDrop else Action.deployCancel
      else Action.deployWait
    else Action.deployHome
  else if a.mode = "Goal" then
    if sqDist a.pose a.guiGoalPoint < 1 then Action.goalReached
    else Action.goalGui
  else Action.explore

/-- The goal-decision section of `run` (robot.py lines 461-519): a
pending report returns `Report` immediately unless the robot is solo or
the base already acknowledged the agent's latest artifact, in which case
(as on ticks with no pending report) the mode arbitration chooses the
behavior. -/
def goalDecision (a : ArbState) : Action :=
  if a.report then
    if a.solo || (a.baseLastArtifact == a.agentLastArtifact) then
      modeDispatch a
    else Action.report
  else modeDispatch a

/-- The loop of `beaconDistCheck` counts active beacons, counts distant
active beacons, and ors the drop flag with "some active beacon is
distant". -/
theorem foldl_bdcStep (pos : Pt) (c : ℚ) (l : List Beacon) (nb ndb : ℕ)
    (d : Bool) :
    l.foldl (bdcStep pos c) (nb, ndb, d) =
      (nb + (l.filter Beacon.active).length,
       ndb + (l.filter (isDistant pos c)).length,
       d || l.any (isDistant pos c)) := by
  induction l generalizing nb ndb d with
  | nil => simp
  | cons b t ih =>
      simp only [List.foldl_cons, List.filter_cons, List.any_cons, bdcStep,
        isDistant]
      by_cases hb : b.active
      · by_cases hd : sqDist pos b.pos > c ^ 2
        · simp only [hb, hd, if_pos, decide_eq_true_eq, ih]
          refine Prod.ext ?_ (Prod.ext ?_ ?_) <;> (simp [hd]; try omega)
        · simp only [hb, hd, if_pos, if_neg, ih]
          refine Prod.ext ?_ (Prod.ext ?_ ?_) <;> (simp [hd]; try omega)
      · simp [hb, ih]

/-- Every active beacon is either distant or in range, so the active
count splits. -/
theorem length_filter_active_split (pos : Pt) (c : ℚ) (l : List Beacon) :
    (l.filter Beacon.active).length =
      (l.filter (isDistant pos c)).length +
        (l.filter (inRange pos c)).length := by
  induction l with
  | nil => simp
  | cons b t ih =>
      simp only [List.filter_cons, isDistant, inRange]
      by_cases hb : b.active
      · by_cases hd : sqDist pos b.pos > c ^ 2
        · simp [hb, hd, ih, isDistant, inRange]
          omega
        · simp [hb, hd, ih, isDistant, inRange]
          omega
      · simp [hb, ih, isDistant, inRange]

/-- Closed form of `beaconDistCheck`: the returned counts are the number
of active beacons and of distant active beacons, and the returned flag is
false when an active beacon is in range, else the input or-ed with the
existence of a distant active beacon. -/
theorem beaconDistCheck_eq (beacons : List Beacon) (pos : Pt) (c : ℚ)
    (d : Bool) :
    beaconDistCheck beacons pos c d =
      (if 0 < (beacons.filter (inRange pos c)).length then false
       else d || beacons.any (isDistant pos c),
       (beacons.filter Beacon.active).length,
       (beacons.filter (isDistant pos c)).length) := by
  have hsplit := length_filter_active_split pos c beacons
  simp only [beaconDistCheck, foldl_bdcStep, Nat.zero_add]
  refine Prod.ext ?_ rfl
  simp only []
  by_cases h : 0 < (beacons.filter (inRange pos c)).length
  · rw [if_pos h, if_pos (by omega)]
  · rw [if_neg h, if_neg (by omega)]

/-- Claim C4: for every call to `beaconDistCheck` in which more than one
already-active beacon lies within the given check distance of the given
pose, the returned `dropBeacon` flag is false, even if the caller passed
`dropBeacon = true` from an upstream rule. -/
theorem beacon_redundancy_cancellation (beacons : List Beacon) (pos : Pt)
    (c : ℚ) (d : Bool)
    (h : 2 ≤ (beacons.filter (inRange pos c)).length) :
    (beaconDistCheck beacons pos c d).1 = false := by
  rw [beaconDistCheck_eq]
  exact if_pos (by omega)

/-- Witness for C4: two active beacons at distance 1 and 2 from the pose,
check distance 5, and an upstream `dropBeacon = true`: the drop is
cancelled. -/
theorem beacon_redundancy_cancellation_witness :
    (beaconDistCheck
      [⟨"B1", false, true, false, ⟨1, 0, 0⟩⟩,
       ⟨"B2", false, true, false, ⟨0, 2, 0⟩⟩]
      ⟨0, 0, 0⟩ 5 true).1 = false := by
  refine beacon_redundancy_cancellation _ _ _ _ ?_
  norm_num [inRange, sqDist, List.filter]

/-- Claim C10: `beaconDistCheck` returns false as soon as one active
beacon is within the check distance; returns true when active beacons
exist and all are beyond the check distance, whatever the input flag; and
returns the input flag unchanged when no beacon is active. -/
theorem beaconDistCheck_flag_cases (beacons : List Beacon) (pos : Pt)
    (c : ℚ) (d : Bool) :
    (1 ≤ (beacons.filter (inRange pos c)).length →
      (beaconDistCheck beacons pos c d).1 = false) ∧
    ((1 ≤ (beacons.filter Beacon.active).length ∧
        ∀ b ∈ beacons, b.active = true → sqDist pos b.pos > c ^ 2) →
      (beaconDistCheck beacons pos c d).1 = true) ∧
    ((∀ b ∈ beacons, b.active = false) →
      (beaconDistCheck beacons pos c d).1 = d) := by
  rw [beaconDistCheck_eq]
  refine ⟨fun h => if_pos (by omega), fun h => ?_, fun h => ?_⟩
  · obtain ⟨b, hbmem, hbact⟩ :
        ∃ b ∈ beacons, b.active = true := by
      have := h.1
      rcases hf : beacons.filter Beacon.active with _ | ⟨b, t⟩
      · rw [hf] at this; simp at this
      · have hb : b ∈ beacons.filter Beacon.active := by rw [hf]; simp
        exact ⟨b, List.mem_of_mem_filter hb, List.of_mem_filter hb⟩
    have hany : beacons.any (isDistant pos c) = true :=
      List.any_eq_true.mpr ⟨b, hbmem, by
        simp [isDistant, hbact, h.2 b hbmem hbact]⟩
    have hnone : (beacons.filter (inRange pos c)).length = 0 := by
      rw [List.length_eq_zero, List.filter_eq_nil_iff]
      intro x hx
      simp only [inRange, Bool.and_eq_true, decide_eq_true_eq, not_and,
        not_not]
      intro hxact
      simp [h.2 x hx hxact]
    rw [if_neg (by omega)]
    simp [hany]
  · have hnone : (beacons.filter (inRange pos c)).length = 0 := by
      rw [List.length_eq_zero, List.filter_eq_nil_iff]
      intro x hx
      simp [inRange, h x hx]
    have hany : beacons.any (isDistant pos c) = false := by
      rw [List.any_eq_false]
      intro x hx
      simp [isDistant, h x hx]
    rw [if_neg (by omega)]
    simp [hany]

/-- Witness for C10: the three cases at concrete inputs: one active
beacon in range cancels the drop; one active beacon out of range forces
the drop; no active beacon leaves the input flag unchanged. -/
theorem beaconDistCheck_flag_cases_witness :
    (beaconDistCheck [⟨"B1", false, true, false, ⟨1, 0, 0⟩⟩]
      ⟨0, 0, 0⟩ 5 true).1 = false ∧
    (beaconDistCheck [⟨"B1", false, true, false, ⟨9, 0, 0⟩⟩]
      ⟨0, 0, 0⟩ 5 false).1 = true ∧
    (beaconDistCheck [⟨"B1", false, false, false, ⟨1, 0, 0⟩⟩]
      ⟨0, 0, 0⟩ 5 true).1 = true := by
  refine ⟨(beaconDistCheck_flag_cases _ _ _ _).1 ?_,
    (beaconDistCheck_flag_cases _ _ _ _).2.1 ⟨?_, ?_⟩,
    (beaconDistCheck_flag_cases _ _ _ _).2.2 ?_⟩
  · norm_num [inRange, sqDist, List.filter]
  · norm_num [List.filter]
  · intro b hb hact
    simp only [List.mem_singleton] at hb
    subst hb
    norm_num [sqDist]
  · intro b hb
    simp only [List.mem_singleton] at hb
    subst hb
    rfl

/-- Claim C1 (amended): on a tick where the stuck counter has reached the
stuck threshold or an exact multiple of it, the engine averages the
pending goals, discards candidates at distance `2×deconflictRadius` or
more from that mean, and, when the survivors exceed half the
history-window length and their mean is not the origin, appends that mean
to the goal blacklist and clears the pending list. (The spec's concrete
example `{(0,0),(0,0),(0,0),(100,100)}` with radius 2.5 commits nothing:
see the counterexample theorem.) -/
theorem stuck_blacklist_commit_rule (hislen stopCheck : ℕ) (radius : ℚ)
    (s : StuckState) (h1 : stopCheck ≤ s.stuck)
    (h2 : s.stuck % stopCheck = 0)
    (h3 : (survivors radius s.blgoals).length > hislen / 2)
    (h4 : ¬((averagePosition (survivors radius s.blgoals)).x = 0 ∧
            (averagePosition (survivors radius s.blgoals)).y = 0 ∧
            (averagePosition (survivors radius s.blgoals)).z = 0)) :
    blacklistCommit hislen stopCheck radius s =
      { s with
          blacklist :=
            s.blacklist ++ [averagePosition (survivors radius s.blgoals)]
          blgoals := [] } := by
  simp only [blacklistCommit]
  rw [if_pos ⟨h1, h2⟩, if_pos h3, if_pos h4]

/-- The pending goals of the spec's blacklist outlier example. -/
def exGoals : List Pt := [⟨0, 0, 0⟩, ⟨0, 0, 0⟩, ⟨0, 0, 0⟩, ⟨100, 100, 0⟩]

/-- Counterexample to C1's concrete example: with pending goals
`{(0,0),(0,0),(0,0),(100,100)}` and deconfliction radius 2.5, the mean is
`(25,25,0)` and every candidate lies farther than `2×2.5 = 5` from it, so
the outlier filter discards all four, the survivor test fails, and the
commit step leaves the state unchanged — no blacklist point is committed,
in particular not the mean of the three near-origin points. (Stuck
counter 30, threshold 30, window length 40.) -/
theorem blacklist_outlier_example_refuted :
    blacklistCommit 40 30 (5/2) ⟨30, exGoals, []⟩ = ⟨30, exGoals, []⟩ := by
  have havg : averagePosition exGoals = ⟨25, 25, 0⟩ := by
    norm_num [averagePosition, exGoals]
  have hsurv : survivors (5/2) exGoals = [] := by
    rw [survivors, List.filter_eq_nil_iff]
    intro a ha
    rw [havg]
    simp only [exGoals, List.mem_cons, List.not_mem_nil, or_false] at ha
    rcases ha with rfl | rfl | rfl | rfl <;> norm_num [sqDist]
  simp [blacklistCommit, hsurv]

/-- The pending goals of the witness for the amended C1. -/
def wGoals : List Pt := [⟨1, 0, 0⟩, ⟨1, 0, 0⟩, ⟨1, 0, 0⟩]

/-- Witness for C1 (amended): three coincident pending goals at `(1,0,0)`
with radius 2.5, stuck counter 2, threshold 2 and window length 4 all
survive the filter, exceed half the window, and their mean `(1,0,0)` is
committed while the pending list clears. -/
theorem stuck_blacklist_commit_rule_witness :
    blacklistCommit 4 2 (5/2) ⟨2, wGoals, []⟩ = ⟨2, [], [⟨1, 0, 0⟩]⟩ := by
  have havg : averagePosition wGoals = ⟨1, 0, 0⟩ := by
    norm_num [averagePosition, wGoals]
  have hsurv : survivors (5/2) wGoals = wGoals := by
    rw [survivors, List.filter_eq_self]
    intro a ha
    rw [havg]
    simp only [wGoals, List.mem_cons, List.not_mem_nil, or_false] at ha
    rcases ha with rfl | rfl | rfl <;> norm_num [sqDist]
  have h := stuck_blacklist_commit_rule 4 2 (5/2) ⟨2, wGoals, []⟩
    (by norm_num) (by norm_num)
    (by rw [hsurv]; norm_num [wGoals])
    (by rw [hsurv, havg]; norm_num)
  rw [h, hsurv, havg]
  simp

/-- Claim C2: on a tick passing the status-check guards (mission started,
status not `Stop`, agent id without `'A'`, nonempty goal path, full
history window), the stuck test drives the increment step: when the
window shows displacement below 0.5 and heading change below 60°, the
stuck counter strictly increases (to `stuck + 1`) and the current goal
position is appended to the pending blacklist candidates; otherwise the
counter resets to 0 and the pending list clears. -/
theorem stuck_counter_tick (hislen stopCheck : ℕ) (radius : ℚ)
    (status : String) (robotId : List Char) (history : List Pose)
    (goalPos : Pt) (s : StuckState)
    (hstatus : (status == "Stop") = false)
    (hid : robotId.contains 'A' = false)
    (hlen : history.length = hislen) :
    stuckTick hislen stopCheck radius true status robotId true history
        goalPos s =
      blacklistCommit hislen stopCheck radius
        (stuckIncrement history goalPos s) ∧
    (stuckCondition history = true →
      stuckIncrement history goalPos s =
        { s with stuck := s.stuck + 1, blgoals := s.blgoals ++ [goalPos] } ∧
      s.stuck < (stuckIncrement history goalPos s).stuck) ∧
    (stuckCondition history = false →
      stuckIncrement history goalPos s =
        { s with stuck := 0, blgoals := [] }) := by
  have hid' : ¬('A' ∈ robotId) := by simpa using hid
  refine ⟨?_, fun hc => ⟨?_, ?_⟩, fun hc => ?_⟩
  · simp [stuckTick, hstatus, hid', hlen]
  · simp [stuckIncrement, hc]
  · simp [stuckIncrement, hc]
  · simp [stuckIncrement, hc]

/-- Witness for C2: a full two-sample window with zero displacement and
zero heading change on agent `X1` with a goal at `(3,4,5)`: the counter
steps from 0 to 1 and the goal is appended (threshold 30, so no commit
fires). -/
theorem stuck_counter_tick_witness :
    stuckTick 2 30 (5/2) true "Explore" ['X', '1'] true
        [⟨⟨0, 0, 0⟩, 0⟩, ⟨⟨0, 0, 0⟩, 0⟩] ⟨3, 4, 5⟩ ⟨0, [], []⟩ =
      ⟨1, [⟨3, 4, 5⟩], []⟩ := by
  have hc : stuckCondition [⟨⟨0, 0, 0⟩, (0 : ℚ)⟩, ⟨⟨0, 0, 0⟩, 0⟩] = true := by
    norm_num [stuckCondition, sqDist, angleDiffDeg]
  have h := stuck_counter_tick 2 30 (5/2) "Explore" ['X', '1']
    [⟨⟨0, 0, 0⟩, 0⟩, ⟨⟨0, 0, 0⟩, 0⟩] ⟨3, 4, 5⟩ ⟨0, [], []⟩
    (by decide) (by decide) (by simp)
  rw [h.1, (h.2.1 hc).1]
  simp [blacklistCommit]

/-- Claim C3: on every tick where the report flag is set, the robot is
not solo, and the base station's last-seen artifact id differs from the
agent's latest artifact id, the goal decision is `Report` and the
Home/Stop/Deploy/Goal/Explore mode arbitration is not consulted — for
every value of the GUI-commanded mode field. -/
theorem report_precedence (a : ArbState) (hr : a.report = true)
    (hs : a.solo = false)
    (hd : a.baseLastArtifact ≠ a.agentLastArtifact) :
    goalDecision a = Action.report := by
  simp [goalDecision, hr, hs, hd]

/-- Witness for C3: a pending report with a stale base acknowledgement
while the GUI mode field holds `Home`: the tick still selects `Report`. -/
theorem report_precedence_witness :
    goalDecision
      { report := true, solo := false, baseLastArtifact := "a1",
        agentLastArtifact := "a2", mode := "Home", incomm := true,
        regainBase := 0, pose := ⟨0, 0, 0⟩, guiGoalPoint := ⟨0, 0, 0⟩,
        junctionDist := 10, beacons := [] } = Action.report :=
  report_precedence _ rfl rfl (by decide)

/-- Claim C9: the deadband suppression condition of `beaconCheck` (rule 6)
requires `pose.position.y < 1` and `pose.position.y > 1` simultaneously,
so it is false for every input: the suppression branch never sets
`dropBeacon` to false and rule 6 never cancels a flagged drop. -/
theorem deadband_condition_unsatisfiable (numBeacons : ℕ)
    (anchorSqDist maxAnchorDist y : ℚ) :
    deadbandCondition numBeacons anchorSqDist maxAnchorDist y = false := by
  by_cases hy : y < 1
  · have hy2 : ¬(1 : ℚ) < y := by linarith
    simp [deadbandCondition, hy2]
  · simp [deadbandCondition, hy]

/-- Claim C7: invoking the deployment sequence with no owned-and-inactive
beacon performs no deployment (the beacon registry and status are
untouched), sets the owned-beacon count to exactly zero — in particular
never negative — and forces the mode to `Explore`. -/
theorem deploy_no_beacon_recovery (triggerOk : Bool) (dropPos : Pt)
    (s : DeployState)
    (h : ∀ b ∈ s.beacons, ¬(b.owner = true ∧ b.active = false)) :
    deployBeacon triggerOk dropPos s =
      { s with numBeacons := 0, mode := "Explore" } ∧
    (deployBeacon triggerOk dropPos s).numBeacons = 0 ∧
    (0 : ℤ) ≤ (deployBeacon triggerOk dropPos s).numBeacons ∧
    (deployBeacon triggerOk dropPos s).mode = "Explore" ∧
    (deployBeacon triggerOk dropPos s).beacons = s.beacons := by
  have hfind : findDeploy s.beacons = none := by
    rw [findDeploy]
    rw [List.find?_eq_none.mpr]
    · rfl
    · intro b hb
      have hnb := h b hb
      simp only [Bool.and_eq_true, Bool.not_eq_true']
      exact hnb
  have : deployBeacon triggerOk dropPos s =
      { s with numBeacons := 0, mode := "Explore" } := by
    rw [deployBeacon, hfind]
  refine ⟨this, ?_, ?_, ?_, ?_⟩ <;> rw [this]

/-- Witness for C7: a registry whose single beacon is already active:
the sequence deploys nothing, zeroes the count and forces `Explore`. -/
theorem deploy_no_beacon_recovery_witness :
    deployBeacon true ⟨1, 2, 3⟩
        ⟨[⟨"B1", true, true, true, ⟨0, 0, 0⟩⟩], 2, "Home", "Deploy"⟩ =
      ⟨[⟨"B1", true, true, true, ⟨0, 0, 0⟩⟩], 0, "Explore", "Deploy"⟩ :=
  (deploy_no_beacon_recovery true ⟨1, 2, 3⟩
    ⟨[⟨"B1", true, true, true, ⟨0, 0, 0⟩⟩], 2, "Home", "Deploy"⟩
    (by intro b hb; simp at hb; subst hb; simp)).1

/-- Claim C8: when a beacon is selected but the deployment trigger fails,
the sequence aborts without marking the selected beacon active and with
the owned-beacon count (and mode) unchanged: the deployment attempt is
atomic on failure. -/
theorem deploy_trigger_failure_atomic (dropPos : Pt) (s : DeployState)
    (h : ∃ d, findDeploy s.beacons = some d) :
    (deployBeacon false dropPos s).beacons = s.beacons ∧
    (deployBeacon false dropPos s).numBeacons = s.numBeacons ∧
    (deployBeacon false dropPos s).mode = s.mode := by
  obtain ⟨d, hd⟩ := h
  rw [deployBeacon, hd]
  exact ⟨rfl, rfl, rfl⟩

/-- Witness for C8: an owned, inactive beacon is selected but the trigger
errors: registry, owned count and mode are exactly as before. -/
theorem deploy_trigger_failure_atomic_witness :
    (deployBeacon false ⟨1, 2, 3⟩
        ⟨[⟨"B1", true, false, false, ⟨0, 0, 0⟩⟩], 2, "Explore", "Run"⟩).beacons =
      [⟨"B1", true, false, false, ⟨0, 0, 0⟩⟩] ∧
    (deployBeacon false ⟨1, 2, 3⟩
        ⟨[⟨"B1", true, false, false, ⟨0, 0, 0⟩⟩], 2, "Explore", "Run"⟩).numBeacons =
      2 ∧
    (deployBeacon false ⟨1, 2, 3⟩
        ⟨[⟨"B1", true, false, false, ⟨0, 0, 0⟩⟩], 2, "Explore", "Run"⟩).mode =
      "Explore" :=
  deploy_trigger_failure_atomic ⟨1, 2, 3⟩
    ⟨[⟨"B1", true, false, false, ⟨0, 0, 0⟩⟩], 2, "Explore", "Run"⟩
    ⟨"B1", rfl⟩

/-- Claim C5: on an in-comm beacon-check tick where the anchor-distance
condition, the junction condition and the turn condition hold
simultaneously (and the robot is outside the minimum anchor range, so the
check runs), the recorded drop reason is "at junction" and the active
check distance is the junction spacing; neither the turn branch nor the
beacon-distance reclassification replaces them. -/
theorem junction_reason_priority (p : BCParams) (history : List Pose)
    (beacons : List Beacon) (pose : Pt)
    (hmin : ¬ sqDist pose p.anchorPos < p.minAnchorDist ^ 2)
    (_hanchor : sqDist pose p.anchorPos > p.maxAnchorDist ^ 2 ∧
      p.delayDrop = false)
    (_hturn : p.turnDetect = true ∧ history.length = p.hislen ∧
      turnCondition p.hislen history = true) :
    ∃ r : BCResult, beaconCheckInComm p true history beacons pose = some r ∧
      r.dropReason = "at junction" ∧ r.checkDist = p.junctionDist := by
  simp only [beaconCheckInComm, junctionPhase, if_neg hmin, if_pos]
  exact ⟨_, rfl, by simp [reclassify], rfl⟩

/-- The beacon-check parameters of the C5 witness scenario: anchor at the
origin, anchor range 2, beacon range 30, junction spacing 10, turn
detection on, no delay drop, a five-sample window. -/
def pW : BCParams :=
  { maxAnchorDist := 2, maxDist := 30, junctionDist := 10,
    minAnchorDist := 1, turnDetect := true, delayDrop := false,
    hislen := 5, anchorPos := ⟨0, 0, 0⟩ }

/-- The history window of the C5 witness scenario: the robot sat at the
origin heading 0°, then appears at `(10,0,0)`-`(11,0,0)` heading 90°, so
the turn test fires. -/
def histT : List Pose :=
  [⟨⟨0, 0, 0⟩, 0⟩, ⟨⟨0, 0, 0⟩, 0⟩, ⟨⟨0, 0, 0⟩, 0⟩,
   ⟨⟨10, 0, 0⟩, 90⟩, ⟨⟨11, 0, 0⟩, 90⟩]

/-- Witness for C5: at pose `(10,0,0)` the anchor condition
(distance 10 > 2), the junction condition and the turn condition all
hold, and the recorded reason is "at junction" with check distance 10. -/
theorem junction_reason_priority_witness :
    (beaconCheckInComm pW true histT [] ⟨10, 0, 0⟩).map BCResult.dropReason =
      some "at junction" ∧
    (beaconCheckInComm pW true histT [] ⟨10, 0, 0⟩).map BCResult.checkDist =
      some 10 := by
  obtain ⟨r, hr, hreason, hdist⟩ :=
    junction_reason_priority pW histT [] ⟨10, 0, 0⟩
      (by norm_num [pW, sqDist])
      (⟨by norm_num [pW, sqDist], rfl⟩)
      (⟨rfl, by simp [histT, pW], by
        norm_num [turnCondition, histT, pW, averagePose, averagePosition,
          sqDist, angleDiffDeg]⟩)
  rw [hr]
  simp [hreason, hdist, pW]

/-- Below-threshold comm-loss ticks only increment the loss counter. -/
theorem commLossStep_increments (jd : ℚ) (p : Pt) (n : ℕ) (L : List Pt)
    (m : String) (h : n + 1 ≤ 5) :
    commLossStep jd p ⟨n, true, L, m⟩ = ⟨n + 1, true, L, m⟩ := by
  have h5 : ¬(n + 1 > 5) := by omega
  simp [commLossStep, h5]

/-- A triggering comm-loss tick near a previously attempted site skips
the drop and disables reverse-drop, leaving the attempt list and the mode
unchanged. -/
theorem commLossStep_skips (jd : ℚ) (p : Pt) (L : List Pt) (m : String)
    (h : L.any (fun bl => decide (sqDist p bl < jd ^ 2)) = true) :
    commLossStep jd p ⟨5, true, L, m⟩ = ⟨0, false, L, m⟩ := by
  simp [commLossStep, h]

/-- Once reverse-drop is disabled, comm-loss ticks change nothing. -/
theorem commLossStep_disabled (jd : ℚ) (p : Pt) (s : RevState)
    (h : s.reverseDrop = false) : commLossStep jd p s = s := by
  simp [commLossStep, h]

/-- Claim C6: under comm loss with reverse-drop enabled and the loss
counter at the threshold, a first episode at `p1` (no prior attempt
within junction spacing) switches the mode to `Deploy` and records `p1`;
a second episode — regaining comm (which resets the counter and
re-enables reverse-drop) followed by six comm-loss ticks at `p2` within
junction spacing of `p1` — skips the new attempt and merely disables
reverse-drop: the attempt list and mode are unchanged, and further
comm-loss ticks do nothing until comm is regained. Hence the two episodes
trigger at most one reverse-drop attempt. -/
theorem reverse_drop_dedup (jd : ℚ) (p1 p2 : Pt) (s : RevState)
    (hrd : s.reverseDrop = true) (hc : s.beaconCommLost = 5)
    (hfar : ∀ bl ∈ s.bl_beacons, ¬ sqDist p1 bl < jd ^ 2)
    (hnear : sqDist p2 p1 < jd ^ 2) :
    commLossStep jd p1 s = ⟨0, true, s.bl_beacons ++ [p1], "Deploy"⟩ ∧
    (commLossStep jd p2)^[6]
        (regainReset true (commLossStep jd p1 s)) =
      ⟨0, false, s.bl_beacons ++ [p1], "Deploy"⟩ ∧
    (∀ p3, commLossStep jd p3 ⟨0, false, s.bl_beacons ++ [p1], "Deploy"⟩ =
      ⟨0, false, s.bl_beacons ++ [p1], "Deploy"⟩) := by
  have hany1 : (s.bl_beacons.any fun bl =>
      decide (sqDist p1 bl < jd ^ 2)) = false := by
    rw [List.any_eq_false]
    intro bl hbl
    simpa using hfar bl hbl
  have hgt : s.beaconCommLost + 1 > 5 := by omega
  have h1 : commLossStep jd p1 s =
      ⟨0, true, s.bl_beacons ++ [p1], "Deploy"⟩ := by
    simp [commLossStep, hrd, hgt, hany1]
  refine ⟨h1, ?_, fun p3 => commLossStep_disabled jd p3 _ rfl⟩
  rw [h1]
  have hany2 : ((s.bl_beacons ++ [p1]).any fun bl =>
      decide (sqDist p2 bl < jd ^ 2)) = true := by
    rw [List.any_eq_true]
    exact ⟨p1, by simp, by simpa using hnear⟩
  have f1 := commLossStep_increments jd p2 0 (s.bl_beacons ++ [p1])
    "Deploy" (by omega)
  have f2 := commLossStep_increments jd p2 1 (s.bl_beacons ++ [p1])
    "Deploy" (by omega)
  have f3 := commLossStep_increments jd p2 2 (s.bl_beacons ++ [p1])
    "Deploy" (by omega)
  have f4 := commLossStep_increments jd p2 3 (s.bl_beacons ++ [p1])
    "Deploy" (by omega)
  have f5 := commLossStep_increments jd p2 4 (s.bl_beacons ++ [p1])
    "Deploy" (by omega)
  have f6 := commLossStep_skips jd p2 (s.bl_beacons ++ [p1]) "Deploy" hany2
  show (commLossStep jd p2)^[5+1]
      (regainReset true ⟨0, true, s.bl_beacons ++ [p1], "Deploy"⟩) = _
  rw [Function.iterate_succ_apply]
  show (commLossStep jd p2)^[4+1]
      (commLossStep jd p2 ⟨0, true, s.bl_beacons ++ [p1], "Deploy"⟩) = _
  rw [f1, Function.iterate_succ_apply]
  show (commLossStep jd p2)^[3+1] _ = _
  rw [f2, Function.iterate_succ_apply]
  show (commLossStep jd p2)^[2+1] _ = _
  rw [f3, Function.iterate_succ_apply]
  show (commLossStep jd p2)^[1+1] _ = _
  rw [f4, Function.iterate_succ_apply]
  show (commLossStep jd p2)^[0+1] _ = _
  rw [f5, Function.iterate_succ_apply, Function.iterate_zero_apply, f6]

/-- Witness for C6: a first comm-loss episode at the origin deploys and
records the site; after regaining comm, a second episode at `(1,0,0)`
(distance 1 < junction spacing 10) runs its six ticks, skips the drop and
disables reverse-drop with the attempt list and mode unchanged; a further
comm-loss tick at `(2,2,2)` changes nothing. -/
theorem reverse_drop_dedup_witness :
    commLossStep 10 ⟨0, 0, 0⟩ ⟨5, true, [], "Explore"⟩ =
      ⟨0, true, [⟨0, 0, 0⟩], "Deploy"⟩ ∧
    (commLossStep 10 ⟨1, 0, 0⟩)^[6]
        (regainReset true (commLossStep 10 ⟨0, 0, 0⟩ ⟨5, true, [], "Explore"⟩)) =
      ⟨0, false, [⟨0, 0, 0⟩], "Deploy"⟩ ∧
    commLossStep 10 ⟨2, 2, 2⟩ ⟨0, false, [⟨0, 0, 0⟩], "Deploy"⟩ =
      ⟨0, false, [⟨0, 0, 0⟩], "Deploy"⟩ := by
  have h := reverse_drop_dedup 10 ⟨0, 0, 0⟩ ⟨1, 0, 0⟩ ⟨5, true, [], "Explore"⟩
    rfl rfl (by simp) (by norm_num [sqDist])
  exact ⟨by simpa using h.1, by simpa using h.2.1,
    by simpa using h.2.2 ⟨2, 2, 2⟩⟩

end Bobcat
